import Mathlib

/-!
Verification development for the robot-homeguard ESP32 firmware
(`src/Firmware/esp32`): the WebSocket telemetry/command channel declared in
`lib/WebSocketClient/WebSocketClient.h` and the host composition in
`src/robot.cpp` / `src/robot.h`.

The repository ships `WebSocketClient.h` (type declarations and the class
interface) but not `WebSocketClient.cpp`, so the bodies of the member
functions are not under `src/`.  Where a definition's body is missing, it is
modelled from the specification and its doc comment says so; the enums,
field lists and function signatures are taken directly from the header.
C++ `float` sensor values are modelled as `Int`, unsigned integer fields as
`Nat` (with C's unsigned comparison `now - t >= i` matching truncated `Nat`
subtraction for a monotone clock).
-/

namespace HomeGuard

/-- Message types, from `enum class MessageType` in WebSocketClient.h. -/
inductive MessageType where
  | CONNECTION_INIT
  | SENSOR_DATA
  | SENSOR_ALERT
  | VOICE_COMMAND
  | VOICE_TRANSCRIPTION
  | AI_RESPONSE
  | ACTUATOR_COMMAND
  | BEHAVIOR_UPDATE
  | EMOTION_UPDATE
  | HEARTBEAT
  | STATUS_UPDATE
  | ERROR_MSG
  | ACK
deriving DecidableEq, Repr

/-- Connection (client) types, from `enum class ConnectionType` in WebSocketClient.h. -/
inductive ConnectionType where
  | ESP32_TYPE
  | AI_ENGINE
  | WEB_CLIENT
  | MOBILE
deriving DecidableEq, Repr

/-- Alert levels, from `enum class AlertLevel` in WebSocketClient.h
(ordinal NORMAL < WARNING < DANGER < CRITICAL). -/
inductive AlertLevel where
  | NORMAL
  | WARNING
  | DANGER
  | CRITICAL
deriving DecidableEq, Repr

/-- Modelled from the spec: body of `WebSocketClient::messageTypeToString` is
absent (`WebSocketClient.cpp` is not in `src/`); the token spellings are the
closed 13-token set of spec section 6, matching the enum constant names. -/
def messageTypeToString : MessageType → String
  | .CONNECTION_INIT => "CONNECTION_INIT"
  | .SENSOR_DATA => "SENSOR_DATA"
  | .SENSOR_ALERT => "SENSOR_ALERT"
  | .VOICE_COMMAND => "VOICE_COMMAND"
  | .VOICE_TRANSCRIPTION => "VOICE_TRANSCRIPTION"
  | .AI_RESPONSE => "AI_RESPONSE"
  | .ACTUATOR_COMMAND => "ACTUATOR_COMMAND"
  | .BEHAVIOR_UPDATE => "BEHAVIOR_UPDATE"
  | .EMOTION_UPDATE => "EMOTION_UPDATE"
  | .HEARTBEAT => "HEARTBEAT"
  | .STATUS_UPDATE => "STATUS_UPDATE"
  | .ERROR_MSG => "ERROR_MSG"
  | .ACK => "ACK"

/-- Modelled from the spec: body of `WebSocketClient::stringToMessageType` is
absent; per spec section 4.2 the token table is total in both directions on the
known set and an unknown token is a decode error, modelled by `none`. -/
def stringToMessageType (s : String) : Option MessageType :=
  if s = "CONNECTION_INIT" then some .CONNECTION_INIT
  else if s = "SENSOR_DATA" then some .SENSOR_DATA
  else if s = "SENSOR_ALERT" then some .SENSOR_ALERT
  else if s = "VOICE_COMMAND" then some .VOICE_COMMAND
  else if s = "VOICE_TRANSCRIPTION" then some .VOICE_TRANSCRIPTION
  else if s = "AI_RESPONSE" then some .AI_RESPONSE
  else if s = "ACTUATOR_COMMAND" then some .ACTUATOR_COMMAND
  else if s = "BEHAVIOR_UPDATE" then some .BEHAVIOR_UPDATE
  else if s = "EMOTION_UPDATE" then some .EMOTION_UPDATE
  else if s = "HEARTBEAT" then some .HEARTBEAT
  else if s = "STATUS_UPDATE" then some .STATUS_UPDATE
  else if s = "ERROR_MSG" then some .ERROR_MSG
  else if s = "ACK" then some .ACK
  else none

/-- Modelled from the spec: body of `WebSocketClient::alertLevelToString` is
absent; the tokens are the alert-level tokens of spec section 6. -/
def alertLevelToString : AlertLevel → String
  | .NORMAL => "NORMAL"
  | .WARNING => "WARNING"
  | .DANGER => "DANGER"
  | .CRITICAL => "CRITICAL"

mutual
/-- JSON values as carried in one WebSocket text frame (spec section 6:
one JSON object per frame).  Numbers are modelled as integers. -/
inductive Json where
  | null
  | bool (b : Bool)
  | str (s : String)
  | num (n : Int)
  | obj (fields : JFields)

/-- Field list of a JSON object. -/
inductive JFields where
  | nil
  | cons (key : String) (value : Json) (rest : JFields)
end

/-- Lookup of a key in a JSON object's field list (first match wins). -/
def jlookup (k : String) : JFields → Option Json
  | .nil => none
  | .cons key v rest => if key = k then some v else jlookup k rest

mutual
/-- Length in bytes of the naive UTF-8 JSON rendering of a value; this is the
encoded size the 8 KiB frame ceiling of spec sections 4.2 and 6 is checked
against (string escaping is not modelled). -/
def encodedSize : Json → Nat
  | .null => 4
  | .bool b => cond b 4 5
  | .str s => s.length + 2
  | .num n => (toString n).length
  | .obj fs => 2 + encodedSizeFields fs

/-- Rendered length of an object's fields: quotes and colon around each key,
a separating comma after each field. -/
def encodedSizeFields : JFields → Nat
  | .nil => 0
  | .cons k v rest => k.length + 3 + encodedSize v + 1 + encodedSizeFields rest
end

/-- Decode errors of the envelope codec, spec section 4.2. -/
inductive DecodeError where
  | NotObject
  | MissingField (field : String)
  | UnknownType (token : String)
deriving DecidableEq, Repr

/-- Message envelope, spec section 3: `id`, `type`, `source`, optional
`target`, monotonic `timestamp`, and a type-specific JSON `payload`. -/
structure Envelope where
  id : String
  type : MessageType
  source : String
  target : Option String
  timestamp : Nat
  payload : Json

/-- Modelled from the spec: the envelope serializer (spec section 4.2
`encode`) — the sending bodies in `WebSocketClient.cpp` are absent.  Builds
the JSON object with all envelope fields, the type serialized through the
token table, `target` null when absent. -/
def encodeEnvelope (env : Envelope) : Json :=
  .obj (.cons "id" (.str env.id)
    (.cons "type" (.str (messageTypeToString env.type))
      (.cons "source" (.str env.source)
        (.cons "target" (match env.target with | some t => .str t | none => .null)
          (.cons "timestamp" (.num (Int.ofNat env.timestamp))
            (.cons "payload" env.payload .nil))))))

/-- Modelled from the spec: the envelope parser (spec section 4.2 `decode`) —
the receiving bodies in `WebSocketClient.cpp` are absent.  Fails on a
non-object, a missing required field, or an unknown type token; `target` is
optional and non-string targets read as null/broadcast. -/
def decodeEnvelope (j : Json) : Except DecodeError Envelope :=
  match j with
  | .obj fs =>
    match jlookup "id" fs with
    | some (.str id) =>
      match jlookup "type" fs with
      | some (.str tok) =>
        match stringToMessageType tok with
        | some t =>
          match jlookup "source" fs with
          | some (.str src) =>
            match jlookup "timestamp" fs with
            | some (.num ts) =>
              match jlookup "payload" fs with
              | some p =>
                let target : Option String :=
                  match jlookup "target" fs with
                  | some (.str tg) => some tg
                  | _ => none
                .ok { id := id, type := t, source := src, target := target,
                      timestamp := ts.toNat, payload := p }
              | none => .error (.MissingField "payload")
            | _ => .error (.MissingField "timestamp")
          | _ => .error (.MissingField "source")
        | none => .error (.UnknownType tok)
      | _ => .error (.MissingField "type")
    | _ => .error (.MissingField "id")
  | _ => .error .NotObject

/-- Threshold table of the alert classifier.  Modelled from the spec: the body
of `WebSocketClient::getAlertLevel` is absent (`WebSocketClient.cpp` is not in
`src/`); the only sensor type whose cut points the specification states
numerically is gas (section 8, S3: NORMAL below 500, WARNING below 1000,
DANGER below 2000, CRITICAL from 2000), so the modelled static table carries
that entry.  Cut points are listed in increasing order. -/
def thresholdTable : List (String × List Int) := [("gas", [500, 1000, 2000])]

/-- Cut points registered for a sensor type, `none` for an unknown type. -/
def thresholdCuts (sensorType : String) : Option (List Int) :=
  List.lookup sensorType thresholdTable

/-- Ordinal alert level from the number of cut points at or below the value:
a value equal to a cut point counts that cut, so ties resolve to the higher
of the two adjacent levels. -/
def alertOfCount : Nat → AlertLevel
  | 0 => .NORMAL
  | 1 => .WARNING
  | 2 => .DANGER
  | _ => .CRITICAL

/-- Modelled from the spec: `WebSocketClient::getAlertLevel` (body absent) —
a pure function of sensor type and value; unknown sensor types classify as
NORMAL, known ones by the static threshold table. -/
def getAlertLevel (sensorType : String) (value : Int) : AlertLevel :=
  match thresholdCuts sensorType with
  | none => .NORMAL
  | some cuts => alertOfCount (cuts.countP (fun c => decide (c ≤ value)))

/-- Outbound sensor message as observable at the envelope level: the chosen
message type and the sensor payload fields of spec section 6. -/
structure SensorMessage where
  type : MessageType
  sensor_type : String
  value : Int
  unit : String
  alert_level : AlertLevel
deriving DecidableEq, Repr

/-- Sensor-data send path.  The signature is from WebSocketClient.h lines
129-130: `sendSensorData(const char* sensorType, float value, const char*
unit, AlertLevel alertLevel)` — the ALERT LEVEL IS A PARAMETER SUPPLIED BY
THE CALLER, there is no three-argument form.  Modelled from the spec for the
rest (body absent): the envelope type is SENSOR_ALERT when the alert level is
not NORMAL and SENSOR_DATA otherwise, and the payload carries the level. -/
def sendSensorData (sensorType : String) (value : Int) (unit : String)
    (alertLevel : AlertLevel) : SensorMessage :=
  { type := if alertLevel = .NORMAL then .SENSOR_DATA else .SENSOR_ALERT,
    sensor_type := sensorType, value := value, unit := unit,
    alert_level := alertLevel }

/-- Connection states of the lifecycle state machine, spec section 3
(the header stores this as the `isConnected` flag plus `connectionId`;
REGISTERED is the state with `isConnected` true and an assigned id). -/
inductive ConnState where
  | DISCONNECTED
  | CONNECTING
  | CONNECTED_UNREGISTERED
  | REGISTERED
  | RECONNECT_WAIT
deriving DecidableEq, Repr

/-- Connection record, from the private fields of `WebSocketClient` in
WebSocketClient.h (wsServer, wsPort, robotId, connectionId, lastHeartbeat,
lastReconnectAttempt, reconnectInterval, heartbeatInterval) together with the
lifecycle state of spec section 3. -/
structure ConnRecord where
  wsServer : String
  wsPort : Nat
  robotId : String
  connectionId : String
  state : ConnState
  lastHeartbeat : Nat
  lastReconnectAttempt : Nat
  reconnectInterval : Nat
  heartbeatInterval : Nat
deriving Repr

/-- Record as constructed by `WebSocketClient(server, port, robotId)` with the
arguments used in robot.cpp, starting DISCONNECTED with an empty connection
id and the spec's default intervals (heartbeat 30000 ms, reconnect 5000 ms). -/
def initRecord : ConnRecord :=
  { wsServer := "ws://your-server.com", wsPort := 8080, robotId := "robot_001",
    connectionId := "", state := .DISCONNECTED,
    lastHeartbeat := 0, lastReconnectAttempt := 0,
    reconnectInterval := 5000, heartbeatInterval := 30000 }

/-- Observable effects of one step of the connection manager: frames queued
to the transport, transport open/close actions, and user callbacks fired. -/
inductive Output where
  | queuedFrame (env : Envelope)
  | openAttempt
  | closedTransport
  | onConnectFired
  | onDisconnectFired
  | onMessageFired (env : Envelope)
  | onErrorFired (message : String)
  | onActuatorCommandFired (payload : Json)

/-- Inbound text frame content: either not parseable as JSON at all, or a
JSON value. -/
inductive TextFrame where
  | notJson
  | json (j : Json)

/-- Events driving the connection manager: the public calls `connect`,
`disconnect` and `update` (poll), and the transport events of spec
section 6 (opened, closed/error, inbound text). -/
inductive Event where
  | connect (now : Nat)
  | disconnect
  | poll (now : Nat)
  | transportOpen
  | transportClose
  | transportError
  | text (frame : TextFrame)

/-- CONNECTION_INIT envelope emitted on transport-open, spec section 4.4:
payload robot_id and client_type ESP32_TYPE, broadcast target. -/
def initEnvelope (robotId : String) : Envelope :=
  { id := "", type := .CONNECTION_INIT, source := robotId, target := none,
    timestamp := 0,
    payload := .obj (.cons "robot_id" (.str robotId)
      (.cons "client_type" (.str "ESP32_TYPE") .nil)) }

/-- HEARTBEAT envelope, spec section 6: empty payload. -/
def heartbeatEnvelope (connectionId : String) (now : Nat) : Envelope :=
  { id := "", type := .HEARTBEAT, source := connectionId, target := none,
    timestamp := now, payload := .obj .nil }

/-- Connection id carried in an ACK payload, when present as a string. -/
def payloadCid (p : Json) : Option String :=
  match p with
  | .obj fs =>
    match jlookup "connection_id" fs with
    | some (.str s) => some s
    | _ => none
  | _ => none

/-- Error message carried in an ERROR_MSG payload, empty when absent. -/
def payloadMessage (p : Json) : String :=
  match p with
  | .obj fs =>
    match jlookup "message" fs with
    | some (.str s) => s
    | _ => ""
  | _ => ""

/-- Modelled from the spec: the dispatcher of section 4.5 (the handler bodies
`handleConnectionAck`, `handleActuatorCommandMessage`, `handleAIResponse` in
`WebSocketClient.cpp` are absent).  Every decoded envelope first reaches the
generic message callback, then is routed by type: an ACK arriving in
CONNECTED_UNREGISTERED whose payload carries a connection id registers the
connection and fires the connect callback; ACTUATOR_COMMAND invokes the
actuator callback; ERROR_MSG surfaces through the error callback; AI_RESPONSE
already reached the generic callback; others are ignored. -/
def dispatch (s : ConnRecord) (env : Envelope) : ConnRecord × List Output :=
  match env.type with
  | .ACK =>
    if s.state = .CONNECTED_UNREGISTERED then
      match payloadCid env.payload with
      | some cid =>
        ({ s with state := .REGISTERED, connectionId := cid },
         [.onMessageFired env, .onConnectFired])
      | none => (s, [.onMessageFired env, .onErrorFired "DecodeError"])
    else (s, [.onMessageFired env])
  | .ACTUATOR_COMMAND => (s, [.onMessageFired env, .onActuatorCommandFired env.payload])
  | .ERROR_MSG => (s, [.onMessageFired env, .onErrorFired (payloadMessage env.payload)])
  | _ => (s, [.onMessageFired env])

/-- Frame ceiling of spec sections 4.2 and 6: 8 KiB. -/
def frameCeiling : Nat := 8192

/-- Modelled from the spec: one transition of the connection-manager state
machine of section 4.4 (the bodies of `connect`, `disconnect`, `update` and
`handleWebSocketEvent` in `WebSocketClient.cpp` are absent).  `poll` attempts
a reconnect after the backoff window in RECONNECT_WAIT and emits a heartbeat
in REGISTERED when one is overdue; transport close/error clears the
connection id when leaving REGISTERED; a malformed, oversize or undecodable
inbound frame is dropped with a single error report and no state change. -/
def step (s : ConnRecord) (e : Event) : ConnRecord × List Output :=
  match e with
  | .connect now =>
    match s.state with
    | .DISCONNECTED =>
      ({ s with state := .CONNECTING, lastReconnectAttempt := now }, [.openAttempt])
    | _ => (s, [])
  | .disconnect =>
    ({ s with state := .DISCONNECTED, connectionId := "" }, [.closedTransport])
  | .poll now =>
    match s.state with
    | .RECONNECT_WAIT =>
      if s.reconnectInterval ≤ now - s.lastReconnectAttempt then
        ({ s with state := .CONNECTING, lastReconnectAttempt := now }, [.openAttempt])
      else (s, [])
    | .REGISTERED =>
      if s.heartbeatInterval ≤ now - s.lastHeartbeat then
        ({ s with lastHeartbeat := now },
         [.queuedFrame (heartbeatEnvelope s.connectionId now)])
      else (s, [])
    | _ => (s, [])
  | .transportOpen =>
    match s.state with
    | .CONNECTING =>
      ({ s with state := .CONNECTED_UNREGISTERED },
       [.queuedFrame (initEnvelope s.robotId)])
    | _ => (s, [])
  | .transportClose | .transportError =>
    match s.state with
    | .CONNECTING => ({ s with state := .RECONNECT_WAIT }, [.onErrorFired "TransportError"])
    | .CONNECTED_UNREGISTERED =>
      ({ s with state := .RECONNECT_WAIT }, [.onErrorFired "TransportError"])
    | .REGISTERED =>
      ({ s with state := .RECONNECT_WAIT, connectionId := "" }, [.onDisconnectFired])
    | _ => (s, [])
  | .text f =>
    match f with
    | .notJson => (s, [.onErrorFired "DecodeError"])
    | .json j =>
      if frameCeiling < encodedSize j then (s, [.onErrorFired "DecodeError"])
      else
        match decodeEnvelope j with
        | .error _ => (s, [.onErrorFired "DecodeError"])
        | .ok env => dispatch s env

/-- Run of the connection manager over an event trace, accumulating outputs. -/
def runConn (s : ConnRecord) (events : List Event) : ConnRecord × List Output :=
  match events with
  | [] => (s, [])
  | e :: rest =>
    let r := step s e
    let rr := runConn r.1 rest
    (rr.1, r.2 ++ rr.2)

/-- The header's `isConnectedToServer` (body absent): true exactly in the
registered state. -/
def isConnectedToServer (s : ConnRecord) : Bool :=
  s.state = .REGISTERED

/-- Result of the send path, spec section 4.4. -/
inductive SendResult where
  | Ok
  | NotConnected
  | Oversize
deriving DecidableEq, Repr

/-- States in which a frame of the given type may be transmitted (spec
section 3 invariant): only REGISTERED, except the CONNECTION_INIT frame
which is allowed in CONNECTED_UNREGISTERED. -/
def sendAllowed (s : ConnRecord) (t : MessageType) : Bool :=
  s.state == .REGISTERED || (t == .CONNECTION_INIT && s.state == .CONNECTED_UNREGISTERED)

/-- Modelled from the spec: the send path of section 4.4 (`sendMessage` in
`WebSocketClient.cpp` is absent; the header declares it returning void, so the
Ok/NotConnected/Oversize outcome is modelled as the observable result).  A
send outside an allowed state is dropped with a StateError report, never
queued; an allowed send whose encoding exceeds the frame ceiling is dropped
as oversize; otherwise the frame is queued to the transport. -/
def sendEnvelope (s : ConnRecord) (env : Envelope) : SendResult × List Output :=
  if sendAllowed s env.type then
    if frameCeiling < encodedSize (encodeEnvelope env) then
      (.Oversize, [.onErrorFired "Oversize"])
    else
      (.Ok, [.queuedFrame env])
  else
    (.NotConnected, [.onErrorFired "StateError"])

/-- Modelled from the spec: `WebSocketClient::setReconnectInterval` (body
absent; the parameter is a C `uint16_t`, so the only non-positive value is 0).
Invalid values are rejected synchronously with a ConfigError and the stored
interval is unchanged. -/
def setReconnectInterval (s : ConnRecord) (interval : Nat) : ConnRecord × List Output :=
  if 0 < interval then ({ s with reconnectInterval := interval }, [])
  else (s, [.onErrorFired "ConfigError"])

/-- Modelled from the spec: `WebSocketClient::setHeartbeatInterval` (body
absent), validated like the reconnect-interval setter. -/
def setHeartbeatInterval (s : ConnRecord) (interval : Nat) : ConnRecord × List Output :=
  if 0 < interval then ({ s with heartbeatInterval := interval }, [])
  else (s, [.onErrorFired "ConfigError"])

/-- Whether an output is a HEARTBEAT frame queued to the transport. -/
def isHeartbeatFrame : Output → Bool
  | .queuedFrame env => env.type == .HEARTBEAT
  | _ => false

/-- Number of HEARTBEAT frames among the outputs. -/
def hbCount (outs : List Output) : Nat :=
  outs.countP isHeartbeatFrame

/-- Number of error-callback invocations among the outputs. -/
def errCount (outs : List Output) : Nat :=
  outs.countP fun o => match o with | .onErrorFired _ => true | _ => false

/-- Whether the decoder rejects a JSON value. -/
def decodeFailed (j : Json) : Bool :=
  match decodeEnvelope j with
  | .error _ => true
  | .ok _ => false

/-- Bad inbound frames of spec section 7 DecodeError: not JSON at all,
oversize, or undecodable (missing field / unknown type token). -/
def isBadFrame : TextFrame → Bool
  | .notJson => true
  | .json j => decide (frameCeiling < encodedSize j) || decodeFailed j

/-- Well-formedness of one event for the connection-id invariant: an inbound
ACK that would register the connection carries a non-empty connection id
(spec section 8, S1: the server assigns a real id such as "c-42"). -/
def ackEventOk (e : Event) : Bool :=
  match e with
  | .text (.json j) =>
    match decodeEnvelope j with
    | .ok env =>
      match env.type, payloadCid env.payload with
      | .ACK, some cid => decide (cid ≠ "")
      | _, _ => true
    | .error _ => true
  | _ => true

/-- Connection-id invariant of spec section 3: the stored connection id is
non-empty exactly in state REGISTERED. -/
def cidInv (s : ConnRecord) : Prop :=
  s.connectionId ≠ "" ↔ s.state = .REGISTERED

/-- Concrete happy-path trace of spec section 8, S1: connect, transport
opens, the server ACKs with connection id "c-42". -/
def ackFrameJson : Json :=
  .obj (.cons "id" (.str "m1")
    (.cons "type" (.str "ACK")
      (.cons "source" (.str "server")
        (.cons "timestamp" (.num 5)
          (.cons "payload" (.obj (.cons "connection_id" (.str "c-42") .nil)) .nil)))))

/-- Event trace of the happy-connect scenario. -/
def ackTrace : List Event :=
  [Event.connect 0, Event.transportOpen, Event.text (TextFrame.json ackFrameJson)]

/-- Registered record of spec scenario S2: heartbeat interval 1000 ms, last
heartbeat at registration time 0. -/
def s2record : ConnRecord :=
  { initRecord with
    state := .REGISTERED, connectionId := "c-42", heartbeatInterval := 1000 }

/-- Poll times of scenario S2: the clock advances 3500 ms while the loop
polls every 100 ms (at a 10 Hz rate). -/
def s2polls : List Event :=
  (List.range 36).map fun k => Event.poll (100 * k)

/-- Decoded actuator-command envelope used for dispatch scenarios: action
play_sound, url "http://x/y", volume 5 (spec section 8, S5). -/
def actEnvelope : Envelope :=
  { id := "m2", type := .ACTUATOR_COMMAND, source := "server", target := none,
    timestamp := 6,
    payload := .obj (.cons "action" (.str "play_sound")
      (.cons "url" (.str "http://x/y") (.cons "volume" (.num 5) .nil))) }

/-- Speaker commands of the MAX98357A driver interface used by robot.cpp
(`speaker.playVolume(volume, url)`). -/
inductive SpeakerCommand where
  | playVolume (volume : Nat) (url : String)
deriving DecidableEq, Repr

/-- Robot::handleActuatorCommand, robot.cpp lines 59-69: the registered
actuator-command callback of the host composition.  Every statement of its
body — including the play_sound branch that would call
`speaker.playVolume(volume, url)` — is commented out in the source, so the
callback issues no speaker command on any input. -/
def Robot.handleActuatorCommand (_doc : Json) : List SpeakerCommand := []

/-- Actions a single iteration of the main loop can perform, from the
statements appearing (commented or not) in robot.cpp Robot::run. -/
inductive RobotAction where
  | printFlameState
  | delayMs (ms : Nat)
  | pollWebSocket
deriving DecidableEq, Repr

/-- Robot::run, robot.cpp lines 39-52: the only uncommented statements are
`flameSensor.printState()` and `delay(500)`; the `wsClient.update()` call on
line 41 is commented out. -/
def Robot.runActions : List RobotAction :=
  [.printFlameState, .delayMs 500]

end HomeGuard

namespace HomeGuard

/-- C7: the message-type token map is a bijection on the closed 13-token set —
decoding the token of any `MessageType` gives it back — and more generally
decoding an encoded envelope returns exactly the original
`(type, payload, target)` (together with the other envelope fields). -/
theorem token_map_and_envelope_roundtrip :
    (∀ t : MessageType, stringToMessageType (messageTypeToString t) = some t) ∧
    (∀ env : Envelope, decodeEnvelope (encodeEnvelope env) = .ok env) := by
  constructor
  · intro t
    cases t <;> rfl
  · intro env
    obtain ⟨id, t, src, tgt, ts, p⟩ := env
    cases t <;> cases tgt <;> rfl

/-- C6: the alert classifier is a pure function of (sensor_type, value):
unknown sensor types classify as NORMAL for every value; each known sensor
type's cut points are strictly increasing; and a value exactly equal to the
i-th cut point classifies at the higher of the two adjacent levels. -/
theorem classifier_table_agreement :
    (∀ st v, thresholdCuts st = none → getAlertLevel st v = AlertLevel.NORMAL) ∧
    (∀ st cuts, thresholdCuts st = some cuts → cuts.Pairwise (· < ·)) ∧
    (∀ st cuts, thresholdCuts st = some cuts →
      ∀ i, ∀ h : i < cuts.length,
        getAlertLevel st (cuts.get ⟨i, h⟩) = alertOfCount (i + 1)) := by
  refine ⟨?_, ?_, ?_⟩
  · intro st v h
    simp [getAlertLevel, h]
  · intro st cuts h
    simp only [thresholdCuts, thresholdTable, List.lookup] at h
    split at h
    · cases h; decide
    · cases h
  · intro st cuts h i hi
    simp only [thresholdCuts, thresholdTable, List.lookup] at h
    split at h
    · rename_i heq
      have hst : st = "gas" := by simpa using heq
      cases h
      subst hst
      have hi3 : i < 3 := by simpa using hi
      interval_cases i
      · show getAlertLevel "gas" 500 = alertOfCount (0 + 1)
        decide
      · show getAlertLevel "gas" 1000 = alertOfCount (1 + 1)
        decide
      · show getAlertLevel "gas" 2000 = alertOfCount (2 + 1)
        decide
    · cases h

/-- Witness for C6: the unknown sensor type "smoke" classifies NORMAL, and at
the gas cut points 500, 1000, 2000 the classifier ties upward to WARNING,
DANGER, CRITICAL respectively. -/
theorem classifier_table_agreement_witness :
    getAlertLevel "smoke" 750 = AlertLevel.NORMAL ∧
    getAlertLevel "gas" 500 = AlertLevel.WARNING ∧
    getAlertLevel "gas" 1000 = AlertLevel.DANGER ∧
    getAlertLevel "gas" 2000 = AlertLevel.CRITICAL := by
  refine ⟨classifier_table_agreement.1 "smoke" 750 (by decide), ?_, ?_, ?_⟩
  · exact classifier_table_agreement.2.2 "gas" [500, 1000, 2000] (by decide) 0 (by decide)
  · exact classifier_table_agreement.2.2 "gas" [500, 1000, 2000] (by decide) 1 (by decide)
  · exact classifier_table_agreement.2.2 "gas" [500, 1000, 2000] (by decide) 2 (by decide)

/-- C1 counterexample: the claim reads `send_sensor_data(sensor_type, value,
unit)` with the core computing the alert level itself, but the header's
signature (WebSocketClient.h lines 129-130) makes the alert level a fourth
caller-supplied parameter and the emitted message follows it: calling it for
("gas", 750, "ppm") with level NORMAL emits a SENSOR_DATA message carrying
NORMAL, not the SENSOR_ALERT/WARNING the claim requires, and the carried
level differs from the classifier's value for ("gas", 750). -/
theorem sendSensorData_caller_level_counterexample :
    (sendSensorData "gas" 750 "ppm" AlertLevel.NORMAL).type = MessageType.SENSOR_DATA ∧
    (sendSensorData "gas" 750 "ppm" AlertLevel.NORMAL).alert_level = AlertLevel.NORMAL ∧
    getAlertLevel "gas" 750 = AlertLevel.WARNING := by
  decide

/-- C1 amended: `sendSensorData(sensor_type, value, unit, alert_level)` takes
the alert level from the caller; it emits a SENSOR_ALERT message exactly when
that level is not NORMAL and a SENSOR_DATA message otherwise, carrying the
supplied fields unchanged; the classifier maps ("gas", 750) to WARNING under
the documented gas thresholds, so a caller passing the classified level for
("gas", 750, "ppm") emits a SENSOR_ALERT message with alert level WARNING. -/
theorem sendSensorData_amended :
    (∀ st v u lv, (sendSensorData st v u lv).type =
        (if lv = AlertLevel.NORMAL then MessageType.SENSOR_DATA else MessageType.SENSOR_ALERT) ∧
      (sendSensorData st v u lv).alert_level = lv ∧
      (sendSensorData st v u lv).sensor_type = st ∧
      (sendSensorData st v u lv).value = v ∧
      (sendSensorData st v u lv).unit = u) ∧
    getAlertLevel "gas" 750 = AlertLevel.WARNING ∧
    (sendSensorData "gas" 750 "ppm" (getAlertLevel "gas" 750)).type = MessageType.SENSOR_ALERT ∧
    (sendSensorData "gas" 750 "ppm" (getAlertLevel "gas" 750)).alert_level = AlertLevel.WARNING := by
  refine ⟨?_, by decide, by decide, by decide⟩
  intro st v u lv
  simp [sendSensorData]

/-- Helper: a connection state is one of the five lifecycle states. -/
theorem connState_cases (c : ConnState) :
    c = .DISCONNECTED ∨ c = .CONNECTING ∨ c = .CONNECTED_UNREGISTERED ∨
    c = .REGISTERED ∨ c = .RECONNECT_WAIT := by
  cases c <;> simp

/-- Helper: for a non-ACK envelope the dispatcher leaves the record alone. -/
theorem dispatch_fst_of_ne_ack (s : ConnRecord) (env : Envelope)
    (h : env.type ≠ .ACK) : (dispatch s env).1 = s := by
  unfold dispatch
  cases hty : env.type <;> simp_all

/-- Helper: one step of the connection manager preserves the connection-id
invariant, given that a registering ACK carries a non-empty id. -/
theorem cidInv_step (s : ConnRecord) (e : Event) (hs : cidInv s)
    (he : ackEventOk e = true) : cidInv (step s e).1 := by
  cases e with
  | connect now =>
    cases hst : s.state <;> simp_all [cidInv, step]
  | disconnect =>
    simp_all [cidInv, step]
  | poll now =>
    cases hst : s.state <;> simp_all [cidInv, step] <;> split_ifs <;> simp_all
  | transportOpen =>
    cases hst : s.state <;> simp_all [cidInv, step]
  | transportClose =>
    cases hst : s.state <;> simp_all [cidInv, step]
  | transportError =>
    cases hst : s.state <;> simp_all [cidInv, step]
  | text f =>
    cases f with
    | notJson => simpa [step] using hs
    | json j =>
      by_cases hov : frameCeiling < encodedSize j
      · simpa [step, hov] using hs
      · cases hdec : decodeEnvelope j with
        | error err => simpa [step, hov, hdec] using hs
        | ok env =>
          have hred : (step s (Event.text (TextFrame.json j))).1 = (dispatch s env).1 := by
            simp [step, hov, hdec]
          rw [hred]
          by_cases hack : env.type = .ACK
          · simp only [ackEventOk, hdec, hack] at he
            by_cases hun : s.state = .CONNECTED_UNREGISTERED
            · cases hcid : payloadCid env.payload with
              | some cid =>
                have hcne : cid ≠ "" := by
                  rw [hcid] at he
                  simpa using he
                simp [dispatch, hack, hun, hcid, cidInv, hcne]
              | none => simpa [dispatch, hack, hun, hcid, cidInv] using hs
            · simpa [dispatch, hack, hun, cidInv] using hs
          · rw [dispatch_fst_of_ne_ack s env hack]
            exact hs

/-- Helper: the connection-id invariant holds along any run whose registering
ACK frames carry non-empty ids. -/
theorem cidInv_runConn (events : List Event) (s : ConnRecord) (hs : cidInv s)
    (he : ∀ e ∈ events, ackEventOk e = true) : cidInv (runConn s events).1 := by
  induction events generalizing s with
  | nil => simpa [runConn] using hs
  | cons e rest ih =>
    simp only [runConn]
    exact ih (step s e).1 (cidInv_step s e hs (he e (by simp)))
      (fun x hx => he x (by simp [hx]))

/-- C3: along every event trace from construction (given that the server's
ACKs carry non-empty connection ids, as in scenario S1), the connection
record's state lies in the five-element lifecycle set and the stored
connection id is a non-empty string if and only if the state is REGISTERED. -/
theorem connection_id_iff_registered (events : List Event)
    (he : ∀ e ∈ events, ackEventOk e = true) :
    ((runConn initRecord events).1.connectionId ≠ "" ↔
      (runConn initRecord events).1.state = .REGISTERED) ∧
    ((runConn initRecord events).1.state = .DISCONNECTED ∨
     (runConn initRecord events).1.state = .CONNECTING ∨
     (runConn initRecord events).1.state = .CONNECTED_UNREGISTERED ∨
     (runConn initRecord events).1.state = .REGISTERED ∨
     (runConn initRecord events).1.state = .RECONNECT_WAIT) := by
  refine ⟨cidInv_runConn events initRecord ?_ he, connState_cases _⟩
  simp [cidInv, initRecord]

/-- Witness for C3: on the happy-connect trace (connect, transport open, ACK
with connection id "c-42") the invariant instance holds, the final state is
REGISTERED and the stored id is "c-42". -/
theorem connection_id_iff_registered_witness :
    ((runConn initRecord ackTrace).1.connectionId ≠ "" ↔
      (runConn initRecord ackTrace).1.state = .REGISTERED) ∧
    (runConn initRecord ackTrace).1.state = .REGISTERED ∧
    (runConn initRecord ackTrace).1.connectionId = "c-42" :=
  ⟨(connection_id_iff_registered ackTrace (by decide)).1, by decide, by decide⟩

/-- C4: a poll emits a heartbeat frame exactly when the record is REGISTERED
and the heartbeat is overdue (`now - lastHeartbeat ≥ heartbeatInterval`),
emits at most one heartbeat per poll, and over scenario S2 — heartbeat
interval 1000 ms, the clock advancing 3500 ms in REGISTERED with polls every
100 ms and no other traffic — exactly 3 heartbeat frames are emitted. -/
theorem heartbeat_cadence :
    (∀ s now, hbCount (step s (.poll now)).2 =
      if s.state = .REGISTERED ∧ s.heartbeatInterval ≤ now - s.lastHeartbeat
      then 1 else 0) ∧
    (∀ s now, hbCount (step s (.poll now)).2 ≤ 1) ∧
    hbCount (runConn s2record s2polls).2 = 3 := by
  have h1 : ∀ s now, hbCount (step s (Event.poll now)).2 =
      if s.state = .REGISTERED ∧ s.heartbeatInterval ≤ now - s.lastHeartbeat
      then 1 else 0 := by
    intro s now
    cases hst : s.state <;>
      simp [step, hst, hbCount, isHeartbeatFrame, heartbeatEnvelope] <;>
      split_ifs <;>
      simp_all [List.countP_cons, List.countP_nil, isHeartbeatFrame]
  refine ⟨h1, ?_, ?_⟩
  · intro s now
    rw [h1]
    split_ifs <;> simp
  · decide

/-- C5: a send returns Ok exactly when the frame is queued to the transport;
outside REGISTERED (except the CONNECTION_INIT frame in
CONNECTED_UNREGISTERED) it returns NotConnected, dropping the frame and
reporting a StateError, never queueing silently; and an allowed send whose
encoding exceeds the frame ceiling returns Oversize without queueing. -/
theorem send_path_results (s : ConnRecord) (env : Envelope) :
    ((sendEnvelope s env).1 = .Ok ↔ Output.queuedFrame env ∈ (sendEnvelope s env).2) ∧
    (sendAllowed s env.type = false →
      (sendEnvelope s env).1 = .NotConnected ∧
      Output.queuedFrame env ∉ (sendEnvelope s env).2 ∧
      (sendEnvelope s env).2 = [.onErrorFired "StateError"]) ∧
    (sendAllowed s env.type = true →
      frameCeiling < encodedSize (encodeEnvelope env) →
      (sendEnvelope s env).1 = .Oversize ∧
      Output.queuedFrame env ∉ (sendEnvelope s env).2) ∧
    (sendAllowed s env.type = true ↔
      (s.state = .REGISTERED ∨
        (env.type = .CONNECTION_INIT ∧ s.state = .CONNECTED_UNREGISTERED))) := by
  refine ⟨?_, ?_, ?_, ?_⟩
  · cases hallow : sendAllowed s env.type
    · simp [sendEnvelope, hallow]
    · by_cases hov : frameCeiling < encodedSize (encodeEnvelope env) <;>
        simp [sendEnvelope, hallow, hov]
  · intro hallow
    simp [sendEnvelope, hallow]
  · intro hallow hov
    simp [sendEnvelope, hallow, hov]
  · simp [sendAllowed]

/-- Witness for C5: sending a HEARTBEAT envelope while DISCONNECTED (the
freshly constructed record) is refused as NotConnected, with the frame
dropped and a StateError reported instead of a queued frame. -/
theorem send_path_results_witness :
    (sendEnvelope initRecord (heartbeatEnvelope "c-42" 0)).1 = SendResult.NotConnected ∧
    (sendEnvelope initRecord (heartbeatEnvelope "c-42" 0)).2 =
      [Output.onErrorFired "StateError"] := by
  have h := (send_path_results initRecord (heartbeatEnvelope "c-42" 0)).2.1 (by decide)
  exact ⟨h.1, h.2.2⟩

/-- C8: a malformed, oversize or undecodable inbound frame is dropped: the
record (hence the connection id and the connected flag) is unchanged, the
error callback fires exactly once, no actuator dispatch happens; and a valid
ACTUATOR_COMMAND frame is still dispatched from any state, so valid frames
after a bad one are processed normally. -/
theorem bad_frame_tolerance :
    (∀ s f, isBadFrame f = true →
      (step s (.text f)).1 = s ∧
      errCount (step s (.text f)).2 = 1 ∧
      (∀ p, Output.onActuatorCommandFired p ∉ (step s (.text f)).2) ∧
      isConnectedToServer (step s (.text f)).1 = isConnectedToServer s) ∧
    (∀ s j env, ¬ (frameCeiling < encodedSize j) → decodeEnvelope j = .ok env →
      env.type = .ACTUATOR_COMMAND →
      Output.onActuatorCommandFired env.payload ∈ (step s (.text (.json j))).2) := by
  constructor
  · intro s f hbad
    cases f with
    | notJson =>
      exact ⟨rfl, by simp [step, errCount], by simp [step], rfl⟩
    | json j =>
      by_cases hov : frameCeiling < encodedSize j
      · exact ⟨by simp [step, hov], by simp [step, hov, errCount],
          by simp [step, hov], by simp [step, hov, isConnectedToServer]⟩
      · cases hdec : decodeEnvelope j with
        | ok env =>
          exfalso
          simp [isBadFrame, hov, decodeFailed, hdec] at hbad
        | error err =>
          exact ⟨by simp [step, hov, hdec], by simp [step, hov, hdec, errCount],
            by simp [step, hov, hdec], by simp [step, hov, hdec, isConnectedToServer]⟩
  · intro s j env hov hdec hty
    simp [step, hov, hdec, dispatch, hty]

/-- Witness for C8: the unparseable text frame of scenario S6 leaves the
registered record untouched and fires the error callback once, and the valid
encoded ACTUATOR_COMMAND frame of scenario S5 is still dispatched to the
actuator callback afterwards. -/
theorem bad_frame_tolerance_witness :
    (step s2record (Event.text TextFrame.notJson)).1 = s2record ∧
    errCount (step s2record (Event.text TextFrame.notJson)).2 = 1 ∧
    Output.onActuatorCommandFired actEnvelope.payload ∈
      (step s2record (Event.text (TextFrame.json (encodeEnvelope actEnvelope)))).2 :=
  ⟨(bad_frame_tolerance.1 s2record TextFrame.notJson rfl).1,
   (bad_frame_tolerance.1 s2record TextFrame.notJson rfl).2.1,
   bad_frame_tolerance.2 s2record (encodeEnvelope actEnvelope) actEnvelope
     (by decide) rfl rfl⟩

/-- C9: the reconnect- and heartbeat-interval setters accept only positive
values: zero (the only non-positive value of the unsigned parameter) is
rejected synchronously with a ConfigError, leaving the whole record
unchanged, while a positive value becomes the stored interval with no
error. -/
theorem interval_setters_validate (s : ConnRecord) (i : Nat) :
    (i = 0 →
      setReconnectInterval s i = (s, [Output.onErrorFired "ConfigError"]) ∧
      setHeartbeatInterval s i = (s, [Output.onErrorFired "ConfigError"])) ∧
    (0 < i →
      (setReconnectInterval s i).1.reconnectInterval = i ∧
      (setReconnectInterval s i).1 = { s with reconnectInterval := i } ∧
      (setReconnectInterval s i).2 = [] ∧
      (setHeartbeatInterval s i).1.heartbeatInterval = i ∧
      (setHeartbeatInterval s i).1 = { s with heartbeatInterval := i } ∧
      (setHeartbeatInterval s i).2 = []) := by
  constructor
  · intro h
    subst h
    simp [setReconnectInterval, setHeartbeatInterval]
  · intro h
    simp [setReconnectInterval, setHeartbeatInterval, h]

/-- Witness for C9: setting interval 0 on the fresh record is rejected with a
ConfigError and the record keeps its defaults, while setting 7 and 9 stores
those values. -/
theorem interval_setters_validate_witness :
    setReconnectInterval initRecord 0 = (initRecord, [Output.onErrorFired "ConfigError"]) ∧
    (setReconnectInterval initRecord 7).1.reconnectInterval = 7 ∧
    (setHeartbeatInterval initRecord 9).1.heartbeatInterval = 9 :=
  ⟨((interval_setters_validate initRecord 0).1 rfl).1,
   ((interval_setters_validate initRecord 7).2 (by decide)).1,
   ((interval_setters_validate initRecord 9).2 (by decide)).2.2.2.1⟩

/-- C2 (code bug): on the inbound play_sound actuator command of scenario S5
the host's registered actuator-command callback issues no speaker command at
all — its body is entirely commented out in robot.cpp — so it does not
command audio playback of the url at the requested volume. -/
theorem actuator_callback_plays_nothing :
    Robot.handleActuatorCommand actEnvelope.payload = [] ∧
    (Robot.handleActuatorCommand actEnvelope.payload).countP
      (fun c => match c with | SpeakerCommand.playVolume _ _ => true) = 0 := by
  decide

/-- C10 (code bug): an iteration of Robot::run never invokes the connection
manager's update/poll — the call is commented out — and it delays 500 ms,
so the loop cannot drive poll at 10 Hz or more. -/
theorem run_loop_never_polls :
    Robot.runActions = [RobotAction.printFlameState, RobotAction.delayMs 500] ∧
    Robot.runActions.countP (fun a => a == RobotAction.pollWebSocket) = 0 ∧
    RobotAction.delayMs 500 ∈ Robot.runActions := by
  decide

end HomeGuard
